import Mathlib

/-!
Shallow embedding of the Triton OpenVINO backend (src/src/openvino.cc) for
verification of the specification's claims about batch aggregation, padding,
tensor marshalling, output handling, configuration parsing and the model
lifecycle state machine.
-/

namespace OpenVINOBackend

/-- The modulus of C++ `size_t` on the 64-bit targets this backend is built for. -/
def w64 : Nat := 2 ^ 64

/-- C++ `size_t` subtraction `a - b` where `a` is a non-negative `int`
(so `a < w64` at every use site) and `b` is a `size_t` value.  This models the
expression `max_batch_size - total_batch_size` of openvino.cc line 941, which
wraps modulo 2^64 when `b > a`. -/
def sizeTSub (a b : Nat) : Nat := (a + w64 - b % w64) % w64

theorem sizeTSub_eq_sub (a b : Nat) (hb : b ≤ a) (ha : a < w64) :
    sizeTSub a b = a - b := by
  have hbw : b < w64 := lt_of_le_of_lt hb ha
  have h1 : b % w64 = b := Nat.mod_eq_of_lt hbw
  have h2 : a + w64 - b = (a - b) + w64 := by omega
  have h3 : a - b < w64 := lt_of_le_of_lt (Nat.sub_le a b) ha
  simp only [sizeTSub, h1, h2, Nat.add_mod_right, Nat.mod_eq_of_lt h3]

/-- Per-execution configuration drawn from the `ModelState`:
`MaxBatchSize()` (a non-negative `int`), `EnableBatchPadding()`
(`enable_padding_`) and `SkipDynamicBatchSize()` (`skip_dynamic_batchsize_`). -/
structure ExecCfg where
  maxBatchSize : Nat
  enableBatchPadding : Bool
  skipDynamicBatchsize : Bool
deriving Repr, DecidableEq

/-- The state threaded through the request loop of `ProcessRequests`
(openvino.cc lines 921-962): `total_batch_size` (a `size_t`), the instance's
`batch_pad_size_` field (a `size_t`), and the `all_response_failed` flag. -/
structure AggState where
  total : Nat
  pad : Nat
  failed : Bool
deriving Repr, DecidableEq

/-- One iteration of the request loop of `ProcessRequests`
(openvino.cc lines 921-962) for a request whose first input has leading
dimension `d`.  When `max_batch_size > 0` the code accumulates
`total_batch_size += shape[0]` and then, when `all_response_failed` is still
false, compares the accumulated total against `max_batch_size`: on a
difference it either assigns `batch_pad_size_ = max_batch_size -
total_batch_size` (padding enabled) or responds to every request with the
batch-size-mismatch error and sets `all_response_failed` (padding disabled).
When `max_batch_size == 0` the code only runs `total_batch_size += 1`. -/
def aggregateStep (cfg : ExecCfg) (st : AggState) (d : Nat) : AggState :=
  if 0 < cfg.maxBatchSize then
    if st.failed then
      { st with total := (st.total + d) % w64 }
    else if (st.total + d) % w64 ≠ cfg.maxBatchSize then
      if cfg.enableBatchPadding then
        { total := (st.total + d) % w64,
          pad := sizeTSub cfg.maxBatchSize ((st.total + d) % w64),
          failed := false }
      else
        { st with total := (st.total + d) % w64, failed := true }
    else
      { st with total := (st.total + d) % w64 }
  else
    { st with total := (st.total + 1) % w64 }

/-- The full request loop of `ProcessRequests` (openvino.cc lines 921-962),
entered with `total_batch_size = 0`, the instance's current `batch_pad_size_`
value `padIn` and `all_response_failed = false`.  `dims` lists, in request
order, the leading dimension of each request's first input. -/
def aggregate (cfg : ExecCfg) (padIn : Nat) (dims : List Nat) : AggState :=
  List.foldl (aggregateStep cfg) { total := 0, pad := padIn, failed := false } dims

/-- The sequence of values taken by `total_batch_size` after each request of
the loop, starting from the value `t0`. -/
def runningTotals (t0 : Nat) : List Nat → List Nat
  | [] => []
  | d :: rest => ((t0 + d) % w64) :: runningTotals ((t0 + d) % w64) rest

/-- Observable outcome of one `ProcessRequests` call (openvino.cc lines
860-1099): the computed `total_batch_size`, the final `batch_pad_size_`, which
call-level errors were responded to every request, whether
`infer_request_.infer()` was reached, the leading dimension that
`SetInputTensors` stamps on the marshalled batch, and whether the
request-release / per-request-statistics loop at lines 1075-1087 executed
before returning. -/
structure CallOutcome where
  totalBatchSize : Nat
  padOut : Nat
  batchMismatchError : Bool
  batchExceededError : Bool
  allResponseFailed : Bool
  inferRan : Bool
  inferBatchSize : Option Nat
  requestsReleased : Bool
  statsReported : Bool
deriving Repr, DecidableEq

/-- One `ProcessRequests` call (openvino.cc lines 860-1099) on non-null
requests whose first inputs have leading dimensions `dims`, with the
instance's `batch_pad_size_` equal to `padIn` on entry.  `marshalOk`
abstracts whether the external steps of `SetInputTensors` (collector /
memory-kind / byte-size checks) succeed.  After the request loop the code
returns immediately when `total_batch_size == 0` (line 965), skipping the
response-send, statistics and request-release loops; otherwise it runs the
exceeded-batch check (lines 974-987), `SetBatch` (a no-op), marshalling,
`Infer`, `ReadOutputTensors`, and always reaches the send / statistics /
release loops. -/
def processRequests (cfg : ExecCfg) (padIn : Nat) (dims : List Nat)
    (marshalOk : Bool) : CallOutcome :=
  let ag := aggregate cfg padIn dims
  if ag.total = 0 then
    { totalBatchSize := 0
      padOut := ag.pad
      batchMismatchError := ag.failed
      batchExceededError := false
      allResponseFailed := ag.failed
      inferRan := false
      inferBatchSize := none
      requestsReleased := false
      statsReported := false }
  else
    let exceeded := !ag.failed && !(ag.total == 1) && decide (cfg.maxBatchSize < ag.total)
    let failedAfterBatch := ag.failed || exceeded
    let failedAfterMarshal := failedAfterBatch || !marshalOk
    { totalBatchSize := ag.total
      padOut := ag.pad
      batchMismatchError := ag.failed
      batchExceededError := exceeded
      allResponseFailed := failedAfterMarshal
      inferRan := !failedAfterMarshal
      inferBatchSize :=
        if !failedAfterMarshal && decide (0 < cfg.maxBatchSize) then some ag.total else none
      requestsReleased := true
      statsReported := true }

/-- `SetBatch` (openvino.cc lines 1101-1108): the body is commented out, so
the call performs no batch resize and always succeeds. -/
def setBatch (st : AggState) (_batchSize : Nat) : AggState × Option String :=
  (st, none)

theorem aggregateStep_failed (cfg : ExecCfg) (st : AggState) (d : Nat)
    (h : st.failed = true) : (aggregateStep cfg st d).failed = true := by
  unfold aggregateStep
  split
  · simp [h]
  · simp [h]

theorem aggregate_failed_mono (cfg : ExecCfg) :
    ∀ (dims : List Nat) (st : AggState), st.failed = true →
      (List.foldl (aggregateStep cfg) st dims).failed = true
  | [], _, h => h
  | d :: rest, st, h => by
      rw [List.foldl_cons]
      exact aggregate_failed_mono cfg rest _ (aggregateStep_failed cfg st d h)

theorem aggregateStep_total_pos (cfg : ExecCfg) (st : AggState) (d : Nat)
    (hM : 0 < cfg.maxBatchSize) (hb : st.total + d < w64) :
    (aggregateStep cfg st d).total = st.total + d := by
  have ht : (st.total + d) % w64 = st.total + d := Nat.mod_eq_of_lt hb
  unfold aggregateStep
  rw [if_pos hM]
  split
  · simp [ht]
  · split
    · split <;> simp [ht]
    · simp [ht]

theorem aggregate_total_pos (cfg : ExecCfg) (hM : 0 < cfg.maxBatchSize) :
    ∀ (dims : List Nat) (st : AggState), st.total + dims.sum < w64 →
      (List.foldl (aggregateStep cfg) st dims).total = st.total + dims.sum
  | [], st, _ => by simp
  | d :: rest, st, hb => by
      rw [List.foldl_cons]
      simp only [List.sum_cons] at hb
      have hd : st.total + d < w64 := by omega
      have hstep := aggregateStep_total_pos cfg st d hM hd
      have hrec := aggregate_total_pos cfg hM rest (aggregateStep cfg st d)
        (by rw [hstep]; omega)
      rw [hrec, hstep]
      simp only [List.sum_cons]
      omega

theorem aggregate_pad_frame (cfg : ExecCfg)
    (h : cfg.maxBatchSize = 0 ∨ cfg.enableBatchPadding = false) :
    ∀ (dims : List Nat) (st : AggState),
      (List.foldl (aggregateStep cfg) st dims).pad = st.pad
  | [], _ => rfl
  | d :: rest, st => by
      rw [List.foldl_cons]
      rw [aggregate_pad_frame cfg h rest (aggregateStep cfg st d)]
      unfold aggregateStep
      rcases h with h | h
      · rw [if_neg (by omega)]
      · split
        · split
          · rfl
          · split
            · rw [if_neg (by simp [h])]
            · rfl
        · rfl

theorem aggregate_m0 (cfg : ExecCfg) (h : cfg.maxBatchSize = 0) :
    ∀ (dims : List Nat) (st : AggState), st.total + dims.length < w64 →
      List.foldl (aggregateStep cfg) st dims =
        { total := st.total + dims.length, pad := st.pad, failed := st.failed }
  | [], st, _ => by simp
  | d :: rest, st, hb => by
      rw [List.foldl_cons]
      simp only [List.length_cons] at hb ⊢
      have hstep : aggregateStep cfg st d =
          { total := st.total + 1, pad := st.pad, failed := st.failed } := by
        unfold aggregateStep
        rw [if_neg (by omega), Nat.mod_eq_of_lt (by omega)]
      rw [hstep, aggregate_m0 cfg h rest _ (by simp; omega)]
      simp
      omega

theorem aggregate_pad_of_totals_eq (cfg : ExecCfg) (hM : 0 < cfg.maxBatchSize) :
    ∀ (dims : List Nat) (st : AggState), st.failed = false →
      (∀ t ∈ runningTotals st.total dims, t = cfg.maxBatchSize) →
      (List.foldl (aggregateStep cfg) st dims).pad = st.pad ∧
      (List.foldl (aggregateStep cfg) st dims).failed = false
  | [], st, hf, _ => ⟨rfl, hf⟩
  | d :: rest, st, hf, hall => by
      rw [List.foldl_cons]
      have hhead : (st.total + d) % w64 = cfg.maxBatchSize := by
        apply hall
        simp [runningTotals]
      have hstep : aggregateStep cfg st d =
          { st with total := (st.total + d) % w64 } := by
        unfold aggregateStep
        rw [if_pos hM, if_neg (by simp [hf]), if_neg (by simp [hhead])]
      rw [hstep]
      exact aggregate_pad_of_totals_eq cfg hM rest _ (by simp [hf])
        (fun t ht => hall t (by simp [runningTotals, ht]))

theorem aggregate_failed_iff_not_padding (cfg : ExecCfg)
    (hM : 0 < cfg.maxBatchSize) (hp : cfg.enableBatchPadding = false) :
    ∀ (dims : List Nat) (st : AggState), st.failed = false →
      ((List.foldl (aggregateStep cfg) st dims).failed = true ↔
        ∃ t ∈ runningTotals st.total dims, t ≠ cfg.maxBatchSize)
  | [], st, hf => by simp [runningTotals, hf]
  | d :: rest, st, hf => by
      rw [List.foldl_cons]
      by_cases hhead : (st.total + d) % w64 = cfg.maxBatchSize
      · have hstep : aggregateStep cfg st d =
            { st with total := (st.total + d) % w64 } := by
          unfold aggregateStep
          rw [if_pos hM, if_neg (by simp [hf]), if_neg (by simp [hhead])]
        rw [hstep,
          aggregate_failed_iff_not_padding cfg hM hp rest _ (by simp [hf])]
        simp [runningTotals, hhead]
      · have hstep : aggregateStep cfg st d =
            { st with total := (st.total + d) % w64, failed := true } := by
          unfold aggregateStep
          rw [if_pos hM, if_neg (by simp [hf]), if_pos hhead, if_neg (by simp [hp])]
        rw [hstep]
        constructor
        · intro _
          exact ⟨(st.total + d) % w64, by simp [runningTotals], hhead⟩
        · intro _
          exact aggregate_failed_mono cfg rest _ rfl

theorem sum_mem_runningTotals :
    ∀ (dims : List Nat) (t0 : Nat), dims ≠ [] → t0 + dims.sum < w64 →
      (t0 + dims.sum) ∈ runningTotals t0 dims
  | [], _, hne, _ => absurd rfl hne
  | [d], t0, _, hb => by
      simp only [List.sum_cons, List.sum_nil, Nat.add_zero] at hb ⊢
      simp [runningTotals, Nat.mod_eq_of_lt hb]
  | d :: d2 :: rest, t0, _, hb => by
      simp only [List.sum_cons] at hb ⊢
      have hd : t0 + d < w64 := by omega
      have hmem := sum_mem_runningTotals (d2 :: rest) (t0 + d) (by simp)
        (by simp only [List.sum_cons]; omega)
      simp only [runningTotals, Nat.mod_eq_of_lt hd]
      right
      simp only [List.sum_cons] at hmem
      have : t0 + d + (d2 + rest.sum) = t0 + (d + (d2 + rest.sum)) := by omega
      rwa [this] at hmem

theorem processRequests_zero (cfg : ExecCfg) (padIn : Nat) (dims : List Nat)
    (marshalOk : Bool) (h : (aggregate cfg padIn dims).total = 0) :
    processRequests cfg padIn dims marshalOk =
      { totalBatchSize := 0
        padOut := (aggregate cfg padIn dims).pad
        batchMismatchError := (aggregate cfg padIn dims).failed
        batchExceededError := false
        allResponseFailed := (aggregate cfg padIn dims).failed
        inferRan := false
        inferBatchSize := none
        requestsReleased := false
        statsReported := false } := by
  unfold processRequests
  rw [if_pos h]

theorem processRequests_pos (cfg : ExecCfg) (padIn : Nat) (dims : List Nat)
    (marshalOk : Bool) (h : (aggregate cfg padIn dims).total ≠ 0) :
    processRequests cfg padIn dims marshalOk =
      { totalBatchSize := (aggregate cfg padIn dims).total
        padOut := (aggregate cfg padIn dims).pad
        batchMismatchError := (aggregate cfg padIn dims).failed
        batchExceededError := !(aggregate cfg padIn dims).failed &&
          !((aggregate cfg padIn dims).total == 1) &&
          decide (cfg.maxBatchSize < (aggregate cfg padIn dims).total)
        allResponseFailed := ((aggregate cfg padIn dims).failed ||
            (!(aggregate cfg padIn dims).failed &&
             !((aggregate cfg padIn dims).total == 1) &&
             decide (cfg.maxBatchSize < (aggregate cfg padIn dims).total))) || !marshalOk
        inferRan := !(((aggregate cfg padIn dims).failed ||
            (!(aggregate cfg padIn dims).failed &&
             !((aggregate cfg padIn dims).total == 1) &&
             decide (cfg.maxBatchSize < (aggregate cfg padIn dims).total))) || !marshalOk)
        inferBatchSize :=
          if !(((aggregate cfg padIn dims).failed ||
              (!(aggregate cfg padIn dims).failed &&
               !((aggregate cfg padIn dims).total == 1) &&
               decide (cfg.maxBatchSize < (aggregate cfg padIn dims).total))) || !marshalOk) &&
              decide (0 < cfg.maxBatchSize)
          then some (aggregate cfg padIn dims).total else none
        requestsReleased := true
        statsReported := true } := by
  unfold processRequests
  rw [if_neg h]

/-- Claim C1 counterexample.  Model with `max_batch_size = 2`, batch padding
disabled, two requests whose first inputs have leading dimension 1 each: the
summed leading dimensions equal the max batch size (2), yet `ProcessRequests`
responds to every request with the batch-size-mismatch error and never reaches
`Infer`, because the mismatch check of openvino.cc lines 938-957 runs on the
running total inside the per-request loop (after the first request the running
total is 1, which already differs from 2). -/
theorem c1_counterexample :
    [1, 1].sum = 2 ∧
    (processRequests ⟨2, false, false⟩ 0 [1, 1] true).batchMismatchError = true ∧
    (processRequests ⟨2, false, false⟩ 0 [1, 1] true).allResponseFailed = true ∧
    (processRequests ⟨2, false, false⟩ 0 [1, 1] true).inferRan = false := by
  decide

/-- Claim C1, amended.  For a model with max batch size `M > 0` and batch
padding disabled, `ProcessRequests` fails the call with the
batch-size-mismatch error exactly when some running total of leading
dimensions (taken after each request in order) differs from `M` — not when
the final sum differs.  In particular: if the final sum differs from `M` the
call does fail, every response carries the error and `Infer` does not run;
and if every running total equals `M` the aggregation succeeds without a
batch-size-mismatch error. -/
theorem c1_amended (M padIn : Nat) (dims : List Nat) (marshalOk : Bool)
    (hM : 0 < M) (hne : dims ≠ []) (hs : dims.sum < w64) :
    ((processRequests ⟨M, false, false⟩ padIn dims marshalOk).batchMismatchError = true ↔
      ∃ t ∈ runningTotals 0 dims, t ≠ M) ∧
    (dims.sum ≠ M →
      (processRequests ⟨M, false, false⟩ padIn dims marshalOk).batchMismatchError = true) ∧
    ((processRequests ⟨M, false, false⟩ padIn dims marshalOk).batchMismatchError = true →
      (processRequests ⟨M, false, false⟩ padIn dims marshalOk).allResponseFailed = true ∧
      (processRequests ⟨M, false, false⟩ padIn dims marshalOk).inferRan = false) ∧
    ((∀ t ∈ runningTotals 0 dims, t = M) →
      (processRequests ⟨M, false, false⟩ padIn dims marshalOk).batchMismatchError = false) := by
  have hfail := aggregate_failed_iff_not_padding ⟨M, false, false⟩ hM rfl dims
    { total := 0, pad := padIn, failed := false } rfl
  have hmm : ∀ mk : Bool,
      (processRequests ⟨M, false, false⟩ padIn dims mk).batchMismatchError =
        (aggregate ⟨M, false, false⟩ padIn dims).failed := by
    intro mk
    by_cases h : (aggregate ⟨M, false, false⟩ padIn dims).total = 0
    · rw [processRequests_zero _ _ _ _ h]
    · rw [processRequests_pos _ _ _ _ h]
  refine ⟨?_, ?_, ?_, ?_⟩
  · rw [hmm]
    exact hfail
  · intro hsM
    rw [hmm]
    exact hfail.mpr
      ⟨dims.sum, by simpa using sum_mem_runningTotals dims 0 hne (by omega), hsM⟩
  · intro hmis
    by_cases h : (aggregate ⟨M, false, false⟩ padIn dims).total = 0
    · rw [processRequests_zero _ _ _ _ h] at hmis ⊢
      exact ⟨hmis, rfl⟩
    · rw [processRequests_pos _ _ _ _ h] at hmis ⊢
      simp only at hmis
      simp [hmis]
  · intro hall
    rw [hmm]
    exact (aggregate_pad_of_totals_eq ⟨M, false, false⟩ hM dims
      { total := 0, pad := padIn, failed := false } rfl hall).2

/-- Claim C2 counterexample.  Model with `max_batch_size = 0` and two
requests: the computed total batch size is 2 (one per request), and the
check at openvino.cc lines 974-987 then fails the whole call with the
batch-size-exceeded error (`total_batch_size != 1` and `2 > 0`), so a call
with `M = 0` and `R >= 2` does trigger a batch-size-exceeded error. -/
theorem c2_counterexample :
    (processRequests ⟨0, false, false⟩ 0 [1, 1] true).totalBatchSize = 2 ∧
    (processRequests ⟨0, false, false⟩ 0 [1, 1] true).batchExceededError = true ∧
    (processRequests ⟨0, false, false⟩ 0 [1, 1] true).allResponseFailed = true ∧
    (processRequests ⟨0, false, false⟩ 0 [1, 1] true).inferRan = false := by
  decide

/-- Claim C2, amended.  For a model with max batch size `M = 0` and `R >= 1`
requests, `ProcessRequests` computes total batch size exactly `R` (each
request contributes one logical batch element) and never touches the padding
or batch-size-mismatch logic; however the batch-size-exceeded check still
applies: the call passes it exactly when `R = 1`, and any `R >= 2` fails the
whole call with the batch-size-exceeded error. -/
theorem c2_amended (padIn : Nat) (dims : List Nat)
    (marshalOk padFlag skipFlag : Bool)
    (hne : dims ≠ []) (hlen : dims.length < w64) :
    (processRequests ⟨0, padFlag, skipFlag⟩ padIn dims marshalOk).totalBatchSize
        = dims.length ∧
    (processRequests ⟨0, padFlag, skipFlag⟩ padIn dims marshalOk).padOut = padIn ∧
    (processRequests ⟨0, padFlag, skipFlag⟩ padIn dims marshalOk).batchMismatchError
        = false ∧
    ((processRequests ⟨0, padFlag, skipFlag⟩ padIn dims marshalOk).batchExceededError
        = true ↔ 2 ≤ dims.length) := by
  have hagg : aggregate ⟨0, padFlag, skipFlag⟩ padIn dims =
      { total := dims.length, pad := padIn, failed := false } := by
    simpa using aggregate_m0 ⟨0, padFlag, skipFlag⟩ rfl dims
      { total := 0, pad := padIn, failed := false } (by simpa using hlen)
  have hlen1 : 1 ≤ dims.length := by
    cases dims with
    | nil => exact absurd rfl hne
    | cons d rest => simp
  have hpos : (aggregate ⟨0, padFlag, skipFlag⟩ padIn dims).total ≠ 0 := by
    rw [hagg]
    show dims.length ≠ 0
    omega
  rw [processRequests_pos _ _ _ _ hpos, hagg]
  refine ⟨rfl, rfl, rfl, ?_⟩
  constructor
  · intro h
    simp at h
    omega
  · intro h
    simp
    omega

/-- Claim C4 counterexample.  Model with `max_batch_size = 2`, padding
disabled, one request whose first input has leading dimension 0: the
aggregation fails the call with the batch-size-mismatch error (0 differs from
2), the computed total batch size is 0, and `ProcessRequests` then returns at
openvino.cc line 966 before the response-send, per-request-statistics and
request-release loops, so the requests are neither released nor reported. -/
theorem c4_counterexample :
    (processRequests ⟨2, false, false⟩ 0 [0] true).batchMismatchError = true ∧
    (processRequests ⟨2, false, false⟩ 0 [0] true).totalBatchSize = 0 ∧
    (processRequests ⟨2, false, false⟩ 0 [0] true).requestsReleased = false ∧
    (processRequests ⟨2, false, false⟩ 0 [0] true).statsReported = false := by
  decide

/-- Claim C4, amended.  `ProcessRequests` runs the request-release and
per-request-statistics loops before returning on every path on which the
computed total batch size is nonzero — including every failure path of the
aggregation, marshalling, execution and output steps — but on the path where
the computed total batch size is 0 it returns early (openvino.cc line 966)
without releasing the requests or reporting their statistics. -/
theorem c4_amended (cfg : ExecCfg) (padIn : Nat) (dims : List Nat)
    (marshalOk : Bool) :
    ((processRequests cfg padIn dims marshalOk).totalBatchSize ≠ 0 →
      (processRequests cfg padIn dims marshalOk).requestsReleased = true ∧
      (processRequests cfg padIn dims marshalOk).statsReported = true) ∧
    ((processRequests cfg padIn dims marshalOk).totalBatchSize = 0 →
      (processRequests cfg padIn dims marshalOk).requestsReleased = false ∧
      (processRequests cfg padIn dims marshalOk).statsReported = false) := by
  by_cases h : (aggregate cfg padIn dims).total = 0
  · rw [processRequests_zero _ _ _ _ h]
    exact ⟨fun hc => absurd rfl hc, fun _ => ⟨rfl, rfl⟩⟩
  · rw [processRequests_pos _ _ _ _ h]
    exact ⟨fun _ => ⟨rfl, rfl⟩, fun hc => absurd hc h⟩

theorem aggregate_pad_enabled_short (cfg : ExecCfg)
    (hM : 0 < cfg.maxBatchSize) (hp : cfg.enableBatchPadding = true)
    (hW : cfg.maxBatchSize < w64) :
    ∀ (dims : List Nat) (st : AggState), dims ≠ [] → st.failed = false →
      st.total + dims.sum < cfg.maxBatchSize →
      List.foldl (aggregateStep cfg) st dims =
        { total := st.total + dims.sum,
          pad := cfg.maxBatchSize - (st.total + dims.sum),
          failed := false }
  | [], _, hne, _, _ => absurd rfl hne
  | d :: rest, st, _, hf, hb => by
      rw [List.foldl_cons]
      simp only [List.sum_cons] at hb ⊢
      have hd : st.total + d < cfg.maxBatchSize := by omega
      have hdw : st.total + d < w64 := by omega
      have hmod : (st.total + d) % w64 = st.total + d := Nat.mod_eq_of_lt hdw
      have hne2 : (st.total + d) % w64 ≠ cfg.maxBatchSize := by omega
      have hstep : aggregateStep cfg st d =
          { total := st.total + d,
            pad := cfg.maxBatchSize - (st.total + d),
            failed := false } := by
        unfold aggregateStep
        rw [if_pos hM, if_neg (by simp [hf]), if_pos hne2, if_pos (by simp [hp]),
          hmod, sizeTSub_eq_sub _ _ (le_of_lt hd) hW]
      rw [hstep]
      cases rest with
      | nil =>
          simp
      | cons d2 rest2 =>
          rw [aggregate_pad_enabled_short cfg hM hp hW (d2 :: rest2) _ (by simp) rfl
            (by simp only [List.sum_cons] at hb ⊢; omega)]
          simp only [List.sum_cons, AggState.mk.injEq]
          refine ⟨by omega, by omega, trivial⟩

/-- Claim C5.  For a model with max batch size `M > 0` and batch padding
enabled, when the requests' leading dimensions sum to `M - k` with
`0 < k` (and the sum is positive, as every Triton request carries at
least one batch element), `ProcessRequests` sets `batch_pad_size_` to exactly
`k`, raises neither a batch-size-mismatch nor a batch-size-exceeded error,
and — `SetBatch` being a no-op — the native `Infer` call runs over a batch of
size `M - k`: `SetInputTensors` stamps leading dimension `M - k` (the running
total), not `M`, on the marshalled inputs, so no filler rows are synthesized. -/
theorem c5_ok (M k padIn : Nat) (dims : List Nat)
    (hM : 0 < M) (hMw : M < w64) (hk : 0 < k)
    (hsum : dims.sum + k = M) (hpos : 0 < dims.sum) :
    (processRequests ⟨M, true, false⟩ padIn dims true).padOut = k ∧
    (processRequests ⟨M, true, false⟩ padIn dims true).batchMismatchError = false ∧
    (processRequests ⟨M, true, false⟩ padIn dims true).batchExceededError = false ∧
    (processRequests ⟨M, true, false⟩ padIn dims true).inferRan = true ∧
    (processRequests ⟨M, true, false⟩ padIn dims true).inferBatchSize = some (M - k) ∧
    (processRequests ⟨M, true, false⟩ padIn dims true).totalBatchSize = M - k ∧
    setBatch (aggregate ⟨M, true, false⟩ padIn dims) dims.sum =
      (aggregate ⟨M, true, false⟩ padIn dims, none) := by
  have hne : dims ≠ [] := by
    intro h
    rw [h] at hpos
    simp at hpos
  have hagg : aggregate ⟨M, true, false⟩ padIn dims =
      { total := dims.sum, pad := M - dims.sum, failed := false } := by
    have := aggregate_pad_enabled_short ⟨M, true, false⟩ hM rfl hMw dims
      { total := 0, pad := padIn, failed := false } hne rfl (by simp; omega)
    simpa using this
  have hpos2 : (aggregate ⟨M, true, false⟩ padIn dims).total ≠ 0 := by
    rw [hagg]
    show dims.sum ≠ 0
    omega
  rw [processRequests_pos _ _ _ _ hpos2, hagg]
  have hMk : M - dims.sum = k := by omega
  have hkM : dims.sum = M - k := by omega
  have hlt : ¬ (M < dims.sum) := by omega
  refine ⟨?_, rfl, ?_, ?_, ?_, ?_, rfl⟩
  · show M - dims.sum = k
    omega
  · show (!false && !(dims.sum == 1) && decide (M < dims.sum)) = false
    simp [hlt]
  · show (!((false || (!false && !(dims.sum == 1) && decide (M < dims.sum))) || !true)) = true
    simp [hlt]
  · show (if (!((false || (!false && !(dims.sum == 1) && decide (M < dims.sum))) || !true)
        && decide (0 < M)) then some dims.sum else none) = some (M - k)
    simp [hlt, hM, hkM]
  · show dims.sum = M - k
    omega

/-- Witness for claim C1's amended theorem at `M = 2`, `dims = [1, 1]`. -/
theorem c1_witness :
    ((processRequests ⟨2, false, false⟩ 0 [1, 1] true).batchMismatchError = true ↔
      ∃ t ∈ runningTotals 0 [1, 1], t ≠ 2) ∧
    ([1, 1].sum ≠ 2 →
      (processRequests ⟨2, false, false⟩ 0 [1, 1] true).batchMismatchError = true) ∧
    ((processRequests ⟨2, false, false⟩ 0 [1, 1] true).batchMismatchError = true →
      (processRequests ⟨2, false, false⟩ 0 [1, 1] true).allResponseFailed = true ∧
      (processRequests ⟨2, false, false⟩ 0 [1, 1] true).inferRan = false) ∧
    ((∀ t ∈ runningTotals 0 [1, 1], t = 2) →
      (processRequests ⟨2, false, false⟩ 0 [1, 1] true).batchMismatchError = false) :=
  c1_amended 2 0 [1, 1] true (by decide) (by decide) (by decide)

/-- Witness for claim C2's amended theorem at `M = 0`, one request. -/
theorem c2_witness :
    (processRequests ⟨0, false, false⟩ 0 [1] true).totalBatchSize = 1 ∧
    (processRequests ⟨0, false, false⟩ 0 [1] true).padOut = 0 ∧
    (processRequests ⟨0, false, false⟩ 0 [1] true).batchMismatchError = false ∧
    ((processRequests ⟨0, false, false⟩ 0 [1] true).batchExceededError = true ↔
      2 ≤ [1].length) :=
  c2_amended 0 [1] true false false (by decide) (by decide)

/-- Witness for claim C4's amended theorem on a call with nonzero total. -/
theorem c4_witness :
    (processRequests ⟨2, false, false⟩ 0 [2] true).requestsReleased = true ∧
    (processRequests ⟨2, false, false⟩ 0 [2] true).statsReported = true :=
  (c4_amended ⟨2, false, false⟩ 0 [2] true).1 (by decide)

/-- Witness for claim C5's theorem at `M = 4`, `k = 2`, `dims = [1, 1]`. -/
theorem c5_witness :
    (processRequests ⟨4, true, false⟩ 0 [1, 1] true).padOut = 2 ∧
    (processRequests ⟨4, true, false⟩ 0 [1, 1] true).batchMismatchError = false ∧
    (processRequests ⟨4, true, false⟩ 0 [1, 1] true).batchExceededError = false ∧
    (processRequests ⟨4, true, false⟩ 0 [1, 1] true).inferRan = true ∧
    (processRequests ⟨4, true, false⟩ 0 [1, 1] true).inferBatchSize = some (4 - 2) ∧
    (processRequests ⟨4, true, false⟩ 0 [1, 1] true).totalBatchSize = 4 - 2 ∧
    setBatch (aggregate ⟨4, true, false⟩ 0 [1, 1]) [1, 1].sum =
      (aggregate ⟨4, true, false⟩ 0 [1, 1], none) :=
  c5_ok 4 2 0 [1, 1] (by decide) (by decide) (by decide) (by decide) (by decide)

/-!
Model of the `ModelState` lifecycle (openvino.cc): the one-shot
`ReadNetwork` transition guarded by `network_read_`, the per-device
`LoadNetwork` transition guarded by membership in `executable_network_`, the
`name_node_map` built while loading, and the `ModelInstanceState` constructor
(lines 810-851) that drives both transitions at most once and then copies the
model's `name_node_map` into the instance.
-/

/-- Shared per-model state (`ModelState`): `network_read_`, the raw network
(`network_`, abstracted to the id of the artifact that was read), the
device-keyed `executable_network_` map (abstracted to the list of loaded
device names), and `name_node_map`.  `readCount` and `compileCount` count how
many times `core.read_model` and `core.compile_model` have been invoked. -/
structure ModelSt where
  networkRead : Bool
  network : Option Nat
  readCount : Nat
  loaded : List String
  compileCount : Nat
  nameNodeMap : List (String × Nat)
deriving Repr, DecidableEq

/-- `ModelState::NetworkNotRead` (openvino.cc lines 520-524). -/
def networkNotRead (m : ModelSt) : Bool := !m.networkRead

/-- `ModelState::NetworkNotLoaded` (openvino.cc lines 526-531). -/
def networkNotLoaded (m : ModelSt) (device : String) : Bool :=
  !(m.loaded.contains device)

/-- The message of the internal error returned by a second `ReadNetwork`
call (openvino.cc lines 232-235: "attempt to read model ... more than once"). -/
def readTwiceError : String := "attempt to read model more than once"

/-- The message of the internal error returned by a second `LoadNetwork`
call for the same device (openvino.cc lines 460-463). -/
def loadTwiceError : String := "attempt to load model on device more than once"

/-- `ModelState::ReadNetwork` (openvino.cc lines 228-269): guarded by
`NetworkNotRead`, it returns the internal more-than-once error (leaving the
state untouched) on a repeated call, and otherwise reads the model artifact
into `network_` and sets `network_read_`. -/
def readNetwork (m : ModelSt) (artifact : Nat) : ModelSt × Option String :=
  if networkNotRead m then
    ({ m with
        network := some artifact
        networkRead := true
        readCount := m.readCount + 1 }, none)
  else
    (m, some readTwiceError)

/-- `ModelState::LoadNetwork` (openvino.cc lines 453-501): guarded by
`NetworkNotLoaded`, it returns the internal more-than-once error (leaving the
state untouched) when the device is already loaded, and otherwise compiles the
network for the device and rebuilds `name_node_map` from the compiled model's
inputs.  `inputsOf` abstracts the native engine's enumeration of the compiled
model's inputs as a function of the raw network. -/
def loadNetwork (inputsOf : Option Nat → List (String × Nat)) (m : ModelSt)
    (device : String) : ModelSt × Option String :=
  if networkNotLoaded m device then
    ({ m with
        loaded := device :: m.loaded
        compileCount := m.compileCount + 1
        nameNodeMap := inputsOf m.network }, none)
  else
    (m, some loadTwiceError)

/-- Per-instance state created by the `ModelInstanceState` constructor:
the copy of the model's `name_node_map` taken by `SetNameNodeMap`
(openvino.cc lines 514-518 and 850) and the `batch_pad_size_` field, which
the constructor's member-init list sets to 0 (line 813). -/
structure InstanceView where
  nameNodeMap : List (String × Nat)
  batchPadSize : Nat
deriving Repr, DecidableEq

/-- The `ModelInstanceState` constructor (openvino.cc lines 810-851): when
`NetworkNotRead` it parses parameters and runs `ReadNetwork`; when
`NetworkNotLoaded("CPU")` it configures the engine and runs `LoadNetwork`;
it then creates the infer request and copies `name_node_map` into the
instance.  A `some` error from either step aborts construction (the C++
constructor throws), yielding no instance. -/
def instanceCtor (inputsOf : Option Nat → List (String × Nat)) (m : ModelSt)
    (artifact : Nat) : ModelSt × Option InstanceView :=
  match (if networkNotRead m then readNetwork m artifact else (m, none)) with
  | (m1, some _) => (m1, none)
  | (m1, none) =>
    match (if networkNotLoaded m1 "CPU" then loadNetwork inputsOf m1 "CPU"
           else (m1, none)) with
    | (m2, some _) => (m2, none)
    | (m2, none) =>
      (m2, some { nameNodeMap := m2.nameNodeMap, batchPadSize := 0 })

theorem instanceCtor_fresh (inputsOf : Option Nat → List (String × Nat))
    (m0 : ModelSt) (a : Nat) (hr : m0.networkRead = false)
    (hl : m0.loaded = []) :
    instanceCtor inputsOf m0 a =
      ({ networkRead := true, network := some a, readCount := m0.readCount + 1,
         loaded := ["CPU"], compileCount := m0.compileCount + 1,
         nameNodeMap := inputsOf (some a) },
       some { nameNodeMap := inputsOf (some a), batchPadSize := 0 }) := by
  simp [instanceCtor, readNetwork, loadNetwork, networkNotRead, networkNotLoaded,
    hr, hl]

theorem instanceCtor_loaded (inputsOf : Option Nat → List (String × Nat))
    (m : ModelSt) (a : Nat) (hr : m.networkRead = true)
    (hl : m.loaded.contains "CPU" = true) :
    instanceCtor inputsOf m a =
      (m, some { nameNodeMap := m.nameNodeMap, batchPadSize := 0 }) := by
  have hmem : "CPU" ∈ m.loaded := by simpa using hl
  simp [instanceCtor, readNetwork, loadNetwork, networkNotRead, networkNotLoaded,
    hr, hl, hmem]

/-- Claim C7.  Starting from a fresh `ModelState` (network not read, no device
loaded), the first `ModelInstanceState` construction reads and compiles the
model; a second construction for the same (model, device) pair leaves the
shared state exactly as it was (so `core.read_model` and `core.compile_model`
are not invoked again — the read and compile counters are unchanged), the
name→node map observed by the second instance equals the first's, and a
direct repeated `ReadNetwork` (resp. `LoadNetwork` on the already-loaded
device) returns the internal more-than-once error without modifying the
state. -/
theorem c7_ok (inputsOf : Option Nat → List (String × Nat))
    (m0 : ModelSt) (a : Nat) (hr : m0.networkRead = false)
    (hl : m0.loaded = []) :
    ∀ m1 i1, instanceCtor inputsOf m0 a = (m1, some i1) →
      instanceCtor inputsOf m1 a = (m1, some i1) ∧
      (instanceCtor inputsOf m1 a).1.readCount = m1.readCount ∧
      (instanceCtor inputsOf m1 a).1.compileCount = m1.compileCount ∧
      (∀ i2, (instanceCtor inputsOf m1 a).2 = some i2 →
        i2.nameNodeMap = i1.nameNodeMap) ∧
      readNetwork m1 a = (m1, some readTwiceError) ∧
      loadNetwork inputsOf m1 "CPU" = (m1, some loadTwiceError) := by
  intro m1 i1 h
  rw [instanceCtor_fresh inputsOf m0 a hr hl] at h
  injection h with h1 h2
  injection h2 with h2
  subst h1
  subst h2
  have hctor := instanceCtor_loaded inputsOf
    { networkRead := true, network := some a, readCount := m0.readCount + 1,
      loaded := ["CPU"], compileCount := m0.compileCount + 1,
      nameNodeMap := inputsOf (some a) } a rfl rfl
  refine ⟨?_, ?_, ?_, ?_, ?_, ?_⟩
  · rw [hctor]
  · rw [hctor]
  · rw [hctor]
  · intro i2 hi2
    rw [hctor] at hi2
    injection hi2 with hi2
    rw [← hi2]
  · rfl
  · rfl

/-- Witness for claim C7's theorem on a concrete fresh model state. -/
theorem c7_witness :
    instanceCtor (fun n => [("input0", n.getD 0)])
        { networkRead := true, network := some 7, readCount := 1,
          loaded := ["CPU"], compileCount := 1, nameNodeMap := [("input0", 7)] } 7 =
      ({ networkRead := true, network := some 7, readCount := 1,
         loaded := ["CPU"], compileCount := 1, nameNodeMap := [("input0", 7)] },
       some { nameNodeMap := [("input0", 7)], batchPadSize := 0 }) :=
  (c7_ok (fun n => [("input0", n.getD 0)])
    { networkRead := false, network := none, readCount := 0, loaded := [],
      compileCount := 0, nameNodeMap := [] } 7 rfl rfl
    { networkRead := true, network := some 7, readCount := 1,
      loaded := ["CPU"], compileCount := 1, nameNodeMap := [("input0", 7)] }
    { nameNodeMap := [("input0", 7)], batchPadSize := 0 } (by decide)).1

theorem processRequests_padOut (cfg : ExecCfg) (padIn : Nat) (dims : List Nat)
    (marshalOk : Bool) :
    (processRequests cfg padIn dims marshalOk).padOut =
      (aggregate cfg padIn dims).pad := by
  by_cases h : (aggregate cfg padIn dims).total = 0
  · rw [processRequests_zero _ _ _ _ h]
  · rw [processRequests_pos _ _ _ _ h]

/-- Claim C10 counterexample.  Model with `max_batch_size = 2`, padding
enabled, two requests of leading dimension 1 each and `batch_pad_size_ = 0`
on entry: the call's total batch size equals the max batch size (2), yet
`batch_pad_size_` ends up 1, because after the first request the running
total (1) differed from 2 and openvino.cc line 941 assigned
`batch_pad_size_ = 2 - 1`.  So a call whose total equals the max batch size
does not always leave `batch_pad_size_` unchanged. -/
theorem c10_counterexample :
    (processRequests ⟨2, true, false⟩ 0 [1, 1] true).totalBatchSize = 2 ∧
    (processRequests ⟨2, true, false⟩ 0 [1, 1] true).padOut = 1 ∧
    (0 : Nat) ≠ 1 := by
  decide

/-- Claim C10, amended.  `batch_pad_size_` is 0 when an instance is
constructed, and is assigned during a call only when the max batch size is
positive, padding is enabled and some running total of leading dimensions
differs from the max batch size; hence it is unchanged when the max batch
size is 0, when padding is disabled, and when every running total equals the
max batch size (in particular for a single request carrying the full batch) —
otherwise it is overwritten even when the final total equals the max batch
size, and the value from an earlier short-batch call persists across calls
rather than being reset when a call starts. -/
theorem c10_amended :
    (∀ (inputsOf : Option Nat → List (String × Nat)) (m : ModelSt) (a : Nat)
        (i : InstanceView),
        (instanceCtor inputsOf m a).2 = some i → i.batchPadSize = 0) ∧
    (∀ (cfg : ExecCfg) (padIn : Nat) (dims : List Nat) (marshalOk : Bool),
        cfg.maxBatchSize = 0 ∨ cfg.enableBatchPadding = false →
        (processRequests cfg padIn dims marshalOk).padOut = padIn) ∧
    (∀ (cfg : ExecCfg) (padIn : Nat) (dims : List Nat) (marshalOk : Bool),
        0 < cfg.maxBatchSize →
        (∀ t ∈ runningTotals 0 dims, t = cfg.maxBatchSize) →
        (processRequests cfg padIn dims marshalOk).padOut = padIn) := by
  refine ⟨?_, ?_, ?_⟩
  · intro inputsOf m a i hi
    unfold instanceCtor at hi
    split at hi
    · exact Option.noConfusion hi
    · split at hi
      · exact Option.noConfusion hi
      · injection hi with hv
        rw [← hv]
  · intro cfg padIn dims marshalOk h
    rw [processRequests_padOut]
    exact aggregate_pad_frame cfg h dims { total := 0, pad := padIn, failed := false }
  · intro cfg padIn dims marshalOk hM hall
    rw [processRequests_padOut]
    exact (aggregate_pad_of_totals_eq cfg hM dims
      { total := 0, pad := padIn, failed := false } rfl hall).1

/-- Witness for claim C10's amended theorem: an `M = 0` call and a
single-full-batch call both leave the pad value untouched. -/
theorem c10_witness :
    (processRequests ⟨0, true, false⟩ 3 [1, 1] true).padOut = 3 ∧
    (processRequests ⟨2, true, false⟩ 5 [2] true).padOut = 5 :=
  ⟨c10_amended.2.1 ⟨0, true, false⟩ 3 [1, 1] true (Or.inl rfl),
   c10_amended.2.2 ⟨2, true, false⟩ 5 [2] true (by decide) (by decide)⟩

/-!
Model of the output side (`ReadOutputTensors` and `ValidateOutputBatchSize`,
openvino.cc lines 1224-1274) and of the input-copy gate of `SetInputTensors`
(lines 1193-1220).
-/

/-- Conversion of a non-negative `size_t` value to `int64_t`
(two's-complement wraparound). -/
def sizeTToInt64 (n : Nat) : Int :=
  if n < 2 ^ 63 then (n : Int) else (n : Int) - (w64 : Int)

/-- Conversion of an `int64_t` value to `size_t` (wraparound modulo 2^64). -/
def int64ToSizeT (x : Int) : Nat := (x % (w64 : Int)).toNat

/-- An engine output tensor as observed after `Infer`: its shape (already
converted to the signed generic representation) and its raw bytes. -/
structure OvOutTensor where
  shape : List Int
  bytes : List Nat
deriving Repr, DecidableEq

/-- `ModelInstanceState::ReadOutputTensors` (openvino.cc lines 1224-1252):
for each requested output it fetches the engine tensor, converts its shape
with `ConvertToSignedShape` and hands shape and bytes to the responder.  It
performs no leading-dimension validation (in particular it never calls
`ValidateOutputBatchSize`) and returns no error. -/
def readOutputTensors (outputs : List OvOutTensor) :
    Option String × List (List Int) :=
  (none, outputs.map fun t => t.shape)

/-- `ModelInstanceState::ValidateOutputBatchSize` (openvino.cc lines
1254-1274): with `mbs = MaxBatchSize()` it accepts every shape when
`mbs = 0`; otherwise it errors unless the leading dimension equals `mbs` or
equals `(size_t)(mbs - batch_pad_size_)`, and on acceptance it overwrites the
leading dimension with `mbs - batch_pad_size_`. -/
def validateOutputBatchSize (mbs padSize : Nat) (outputShape : List Int) :
    Option String × List Int :=
  if mbs = 0 then
    (none, outputShape)
  else if outputShape.headI ≠ (mbs : Int) ∧
      int64ToSizeT outputShape.headI ≠ sizeTSub mbs padSize then
    (some "expected batch size of openvino model output mismatch", outputShape)
  else
    (none, outputShape.set 0 (sizeTToInt64 (sizeTSub mbs padSize)))

/-- Claim C3 counterexample.  A model with `max_batch_size = 4` and current
pad size 2, and an engine output of shape `[4, 5]`: the leading dimension 4
differs from `max_batch_size - pad = 2`, yet the output-reading step raises
no error — `ReadOutputTensors` performs no batch-size validation at all, and
even the (never-invoked) `ValidateOutputBatchSize` helper accepts the shape
because it also accepts a leading dimension equal to `max_batch_size`
itself. -/
theorem c3_counterexample :
    (readOutputTensors [{ shape := [4, 5], bytes := [] }]).1 = none ∧
    (validateOutputBatchSize 4 2 [4, 5]).1 = none ∧
    (4 : Int) ≠ ((4 : Nat) - (2 : Nat) : Int) := by
  refine ⟨rfl, ?_, by decide⟩
  have h : ¬ ((4 : Int) ≠ ((4 : Nat) : Int) ∧
      int64ToSizeT 4 ≠ sizeTSub 4 2) := by
    intro hc
    exact hc.1 (by norm_num)
  rw [validateOutputBatchSize, if_neg (by norm_num)]
  rw [if_neg]
  exact h

/-- Claim C3, amended.  `ReadOutputTensors` — the step executed on the output
path — performs no leading-dimension validation and never produces an
output-batch-size error; the separate `ValidateOutputBatchSize` helper (dead
code on the execution path) accepts a leading dimension equal to either
`max_batch_size` or `max_batch_size - pad` (as `size_t` values) and errors
on every other value when the model declares a positive max batch size. -/
theorem c3_amended (mbs padSize : Nat) (shape : List Int)
    (hm : 0 < mbs) :
    ((validateOutputBatchSize mbs padSize shape).1 = none ↔
      shape.headI = (mbs : Int) ∨
      int64ToSizeT shape.headI = sizeTSub mbs padSize) ∧
    (∀ outs : List OvOutTensor,
      (readOutputTensors outs).1 = none ∧
      (readOutputTensors outs).2 = outs.map fun t => t.shape) := by
  constructor
  · rw [validateOutputBatchSize, if_neg (by omega)]
    by_cases hc : shape.headI ≠ (mbs : Int) ∧
        int64ToSizeT shape.headI ≠ sizeTSub mbs padSize
    · rw [if_pos hc]
      simp only [ne_eq] at hc
      constructor
      · intro h
        exact absurd h (by simp)
      · intro h
        rcases h with h | h
        · exact absurd h hc.1
        · exact absurd h hc.2
    · rw [if_neg hc]
      simp only [ne_eq, not_and_or, not_not] at hc
      simp [hc]
  · intro outs
    exact ⟨rfl, rfl⟩

/-- Witness for claim C3's amended theorem at `mbs = 4`, `pad = 2`,
output shape `[2, 5]` (the short-batch leading dimension is accepted). -/
theorem c3_witness :
    ((validateOutputBatchSize 4 2 [2, 5]).1 = none ↔
      ([2, 5] : List Int).headI = ((4 : Nat) : Int) ∨
      int64ToSizeT ([2, 5] : List Int).headI = sizeTSub 4 2) ∧
    (∀ outs : List OvOutTensor,
      (readOutputTensors outs).1 = none ∧
      (readOutputTensors outs).2 = outs.map fun t => t.shape) :=
  c3_amended 4 2 [2, 5] (by decide)

/-- A typed, shaped tensor view as used by the input-copy gate: the shape
stamped on the view and the bytes of its storage (`get_byte_size` is the
storage length). -/
structure OvTensorB where
  shape : List Nat
  bytes : List Nat
deriving Repr, DecidableEq

/-- The copy gate at the end of `SetInputTensors` (openvino.cc lines
1213-1219): the gathered source view `input_tensor` is copied into the
engine's bound storage `requestTensor` by `memcpy` only after checking that
the two shapes and the two byte sizes are equal; otherwise a runtime error
aborts the call before any byte is copied and the destination is left
untouched. -/
def copyInputToRequestTensor (inputTensor requestTensor : OvTensorB) :
    Option String × OvTensorB :=
  if inputTensor.shape ≠ requestTensor.shape ∨
      inputTensor.bytes.length ≠ requestTensor.bytes.length then
    (some "Source and destination tensors shapes and byte sizes are expected to be equal for data copying.",
     requestTensor)
  else
    (none, { requestTensor with bytes := inputTensor.bytes })

/-- Claim C6.  The input-copy gate of `SetInputTensors` copies the gathered
source view's bytes into the engine's bound input storage exactly when the
destination's shape equals the source view's shape and the destination's
byte size equals the source's byte size; when either differs the call is
aborted with the shape-mismatch failure and the destination's bytes are
untouched (no truncation or zero-padding), and on success the destination
holds exactly the source's bytes under its own shape. -/
theorem c6_ok (src dst : OvTensorB) :
    ((copyInputToRequestTensor src dst).1 = none ↔
      src.shape = dst.shape ∧ src.bytes.length = dst.bytes.length) ∧
    ((copyInputToRequestTensor src dst).1 ≠ none →
      (copyInputToRequestTensor src dst).2 = dst) ∧
    ((copyInputToRequestTensor src dst).1 = none →
      (copyInputToRequestTensor src dst).2.bytes = src.bytes ∧
      (copyInputToRequestTensor src dst).2.shape = dst.shape) := by
  by_cases hc : src.shape ≠ dst.shape ∨ src.bytes.length ≠ dst.bytes.length
  · rw [copyInputToRequestTensor, if_pos hc] at *
    refine ⟨?_, fun _ => rfl, ?_⟩
    · simp only [ne_eq] at hc
      constructor
      · intro h
        exact absurd h (by simp)
      · intro h
        rcases hc with hc | hc
        · exact absurd h.1 hc
        · exact absurd h.2 hc
    · intro h
      exact absurd h (by simp)
  · rw [copyInputToRequestTensor, if_neg hc] at *
    simp only [ne_eq, not_or, not_not] at hc
    exact ⟨by simp [hc.1, hc.2], fun h => absurd rfl h, fun _ => ⟨rfl, rfl⟩⟩

/-- Witness for claim C6's theorem: a matching copy goes through and a
mismatched one leaves the destination untouched. -/
theorem c6_witness :
    ((copyInputToRequestTensor { shape := [2], bytes := [7, 8] }
        { shape := [2], bytes := [0, 0] }).1 = none ↔
      ([2] : List Nat) = [2] ∧ ([7, 8] : List Nat).length = ([0, 0] : List Nat).length) ∧
    ((copyInputToRequestTensor { shape := [2], bytes := [7, 8] }
        { shape := [2], bytes := [0, 0] }).1 ≠ none →
      (copyInputToRequestTensor { shape := [2], bytes := [7, 8] }
        { shape := [2], bytes := [0, 0] }).2 = { shape := [2], bytes := [0, 0] }) ∧
    ((copyInputToRequestTensor { shape := [2], bytes := [7, 8] }
        { shape := [2], bytes := [0, 0] }).1 = none →
      (copyInputToRequestTensor { shape := [2], bytes := [7, 8] }
        { shape := [2], bytes := [0, 0] }).2.bytes = [7, 8] ∧
      (copyInputToRequestTensor { shape := [2], bytes := [7, 8] }
        { shape := [2], bytes := [0, 0] }).2.shape = [2]) :=
  c6_ok { shape := [2], bytes := [7, 8] } { shape := [2], bytes := [0, 0] }

/-!
Model of the configuration parsing (`IsNumber`, `ParseBoolParameter`,
`ParseParameter`, `ParseParameterHelper`, openvino.cc lines 52-58 and
340-438).
-/

/-- `std::transform(value.begin(), value.end(), value.begin(), tolower)`:
lowercase every character of the string. -/
def lowerStr (s : String) : String := ⟨s.data.map Char.toLower⟩

/-- `IsNumber` (openvino.cc lines 52-58): true exactly when every character
of the string is a decimal digit (vacuously true on the empty string). -/
def isNumber (s : String) : Bool := s.data.all Char.isDigit

/-- `ModelState::ParseBoolParameter` (openvino.cc lines 340-355): reads the
parameter's value (empty when absent), lowercases it, sets the flag to true
when it equals "yes", and always returns success. -/
def parseBoolParameter (value : String) (setting : Bool) : Bool × Option String :=
  if lowerStr value = "yes" then (true, none) else (setting, none)

/-- `ModelState::ParseParameterHelper` (openvino.cc lines 372-438): the value
is lowercased first; `CPU_THREADS_NUM` requires an all-digit value,
`ENFORCE_BF16` one of yes/no, `CPU_BIND_THREAD` one of yes/numa/no,
`CPU_THROUGHPUT_STREAMS` auto, numa or an all-digit value; any other key is
unsupported.  On success it yields the engine option key and the normalized
value. -/
def parseParameterHelper (mkey value : String) : Except String (String × String) :=
  if mkey = "CPU_THREADS_NUM" then
    if !(isNumber (lowerStr value)) then
      .error "expected the parameter to be a non-negative number"
    else
      .ok ("CPU_THREADS_NUM", lowerStr value)
  else if mkey = "ENFORCE_BF16" then
    if lowerStr value = "yes" then .ok ("ENFORCE_BF16", "YES")
    else if lowerStr value = "no" then .ok ("ENFORCE_BF16", "NO")
    else .error "expected the parameter to be either YES or NO"
  else if mkey = "CPU_BIND_THREAD" then
    if lowerStr value = "yes" then .ok ("CPU_BIND_THREAD", "YES")
    else if lowerStr value = "numa" then .ok ("CPU_BIND_THREAD", "NUMA")
    else if lowerStr value = "no" then .ok ("CPU_BIND_THREAD", "NO")
    else .error "expected the parameter to be either YES/NUMA/NO"
  else if mkey = "CPU_THROUGHPUT_STREAMS" then
    if lowerStr value = "auto" then .ok ("CPU_THROUGHPUT_STREAMS", "CPU_THROUGHPUT_AUTO")
    else if lowerStr value = "numa" then .ok ("CPU_THROUGHPUT_STREAMS", "CPU_THROUGHPUT_NUMA")
    else if !(isNumber (lowerStr value)) then
      .error "expected the parameter to be a non-negative number or AUTO/NUMA"
    else
      .ok ("CPU_THROUGHPUT_STREAMS", lowerStr value)
  else
    .error "the parameter is not yet supported by openvino backend"

/-- True exactly when the helper succeeded. -/
def parseOk (e : Except String (String × String)) : Bool :=
  match e with
  | .ok _ => true
  | .error _ => false

/-- Assignment `(*device_config)[ov_key] = value` on the device option map,
modelled as an association list with overwrite. -/
def insertParam (key value : String) (device_config : List (String × String)) :
    List (String × String) :=
  (key, value) :: device_config.filter fun p => !(p.1 == key)

/-- `ModelState::ParseParameter` (openvino.cc lines 357-370): reads the
value (empty when absent), does nothing when it is empty, and otherwise runs
the helper; on a helper error the error propagates and the device option map
is untouched, on success the mapped key/value pair is stored. -/
def parseParameter (mkey value : String)
    (device_config : List (String × String)) :
    List (String × String) × Option String :=
  if value = "" then (device_config, none)
  else
    match parseParameterHelper mkey value with
    | .error e => (device_config, some e)
    | .ok (k, v) => (insertParam k v device_config, none)

/-- Claim C9.  `ParseBoolParameter` never returns an error; it sets the flag
to true exactly when the lowercased value equals "yes", and for every other
value (including "no", the empty string and arbitrary strings) it leaves the
flag at its previous value. -/
theorem c9_ok (value : String) (setting : Bool) :
    (parseBoolParameter value setting).2 = none ∧
    ((parseBoolParameter value setting).1 = true ↔
      lowerStr value = "yes" ∨ setting = true) ∧
    (lowerStr value ≠ "yes" → (parseBoolParameter value setting).1 = setting) := by
  by_cases h : lowerStr value = "yes" <;> simp [parseBoolParameter, h]

/-- Witness for claim C9's theorem: the value "No" (and so "no" after
lowercasing) does not reset the flag and produces no error. -/
theorem c9_witness :
    (parseBoolParameter "No" false).2 = none ∧
    (parseBoolParameter "No" false).1 = false :=
  ⟨(c9_ok "No" false).1, (c9_ok "No" false).2.2 (by decide)⟩

/-- Claim C8.  For every non-empty value, `ParseParameterHelper` accepts
`CPU_THREADS_NUM` exactly for all-digit values, `ENFORCE_BF16` exactly for
{yes, no}, `CPU_BIND_THREAD` exactly for {yes, numa, no} and
`CPU_THROUGHPUT_STREAMS` exactly for all-digit values or {auto, numa}, in
every case comparing the lowercased value; every other key is rejected, and
whenever the helper rejects, `ParseParameter` reports the invalid-argument
error and adds no entry to the device option map. -/
theorem c8_ok (value mkey : String)
    (device_config : List (String × String)) (hv : value ≠ "") :
    (parseOk (parseParameterHelper "CPU_THREADS_NUM" value) =
      isNumber (lowerStr value)) ∧
    (parseOk (parseParameterHelper "ENFORCE_BF16" value) =
      (lowerStr value == "yes" || lowerStr value == "no")) ∧
    (parseOk (parseParameterHelper "CPU_BIND_THREAD" value) =
      (lowerStr value == "yes" || lowerStr value == "numa" ||
       lowerStr value == "no")) ∧
    (parseOk (parseParameterHelper "CPU_THROUGHPUT_STREAMS" value) =
      (lowerStr value == "auto" || lowerStr value == "numa" ||
       isNumber (lowerStr value))) ∧
    (mkey ≠ "CPU_THREADS_NUM" → mkey ≠ "ENFORCE_BF16" →
      mkey ≠ "CPU_BIND_THREAD" → mkey ≠ "CPU_THROUGHPUT_STREAMS" →
      parseOk (parseParameterHelper mkey value) = false) ∧
    (parseOk (parseParameterHelper mkey value) = false →
      (parseParameter mkey value device_config).1 = device_config ∧
      (parseParameter mkey value device_config).2.isSome = true) := by
  refine ⟨?_, ?_, ?_, ?_, ?_, ?_⟩
  · rw [parseParameterHelper, if_pos rfl]
    cases h : isNumber (lowerStr value) <;> simp [h, parseOk]
  · rw [parseParameterHelper, if_neg (by decide), if_pos rfl]
    by_cases h1 : lowerStr value = "yes"
    · simp [h1, parseOk]
    · by_cases h2 : lowerStr value = "no" <;> simp [h1, h2, parseOk]
  · rw [parseParameterHelper, if_neg (by decide), if_neg (by decide), if_pos rfl]
    by_cases h1 : lowerStr value = "yes"
    · simp [h1, parseOk]
    · by_cases h2 : lowerStr value = "numa"
      · simp [h1, h2, parseOk]
      · by_cases h3 : lowerStr value = "no" <;> simp [h1, h2, h3, parseOk]
  · rw [parseParameterHelper, if_neg (by decide), if_neg (by decide),
      if_neg (by decide), if_pos rfl]
    by_cases h1 : lowerStr value = "auto"
    · simp [h1, parseOk]
    · by_cases h2 : lowerStr value = "numa"
      · simp [h1, h2, parseOk]
      · cases h3 : isNumber (lowerStr value) <;> simp [h1, h2, h3, parseOk]
  · intro k1 k2 k3 k4
    rw [parseParameterHelper, if_neg k1, if_neg k2, if_neg k3, if_neg k4]
    rfl
  · intro herr
    rw [parseParameter, if_neg hv]
    cases hh : parseParameterHelper mkey value with
    | error e => exact ⟨rfl, rfl⟩
    | ok kv =>
        rw [hh] at herr
        simp [parseOk] at herr

/-- Witness for claim C8's theorem: the throughput key accepts "AUTO"
case-insensitively, and an unknown key is rejected without touching the
device option map. -/
theorem c8_witness :
    parseOk (parseParameterHelper "CPU_THROUGHPUT_STREAMS" "AUTO") =
      (lowerStr "AUTO" == "auto" || lowerStr "AUTO" == "numa" ||
       isNumber (lowerStr "AUTO")) ∧
    parseOk (parseParameterHelper "UNKNOWN_KEY" "yes") = false ∧
    (parseParameter "UNKNOWN_KEY" "yes" []).1 = ([] : List (String × String)) ∧
    (parseParameter "UNKNOWN_KEY" "yes" []).2.isSome = true := by
  have h1 := (c8_ok "AUTO" "UNKNOWN_KEY" [] (by decide)).2.2.2.1
  have h5 := (c8_ok "yes" "UNKNOWN_KEY" [] (by decide)).2.2.2.2.1
    (by decide) (by decide) (by decide) (by decide)
  have h6 := (c8_ok "yes" "UNKNOWN_KEY" [] (by decide)).2.2.2.2.2 h5
  exact ⟨h1, h5, h6.1, h6.2⟩

end OpenVINOBackend
